import Mathlib

/-!
Verification of `src/rust/lance-graph/src/source_catalog.rs`.

The file defines a trait `GraphSourceCatalog` (resolution of node labels and
relationship types to `Arc<dyn TableSource>` handles, with default-`None`
mapping accessors), the reference implementation `InMemoryCatalog` backed by
two `HashMap<String, Arc<dyn TableSource>>` fields, and the fixed-schema
handle `SimpleTableSource`.

Embedding choices:
- `Arc<dyn TableSource>` handles are modelled by a type parameter `τ`;
  for concrete witnesses we instantiate `τ := SimpleTableSource`.
- Each `HashMap<String, _>` is modelled as an association list with
  `insertAssoc` (overwrite-on-existing-key, mirroring `HashMap::insert`)
  and `lookupAssoc` (exact string-key lookup, mirroring `HashMap::get`).
- `arrow_schema::Schema` is modelled by its observable used here: an ordered
  list of column (field) names; `Schema::empty()` has no columns.
- `NodeMapping` / `RelationshipMapping` live in `crate::config`, outside the
  verified file; their content is irrelevant here (the catalog never
  constructs or inspects them), so they are placeholder structures.
-/

namespace LanceGraph

/-- Model of `arrow_schema::Schema`: an ordered sequence of column names. -/
structure Schema where
  fields : List String
deriving DecidableEq, Repr

/-- Model of `Schema::empty()`: a schema with zero columns. -/
def Schema.empty : Schema := ⟨[]⟩

/-- Placeholder for `crate::config::NodeMapping` (external to the verified
file; never constructed or inspected by the catalog). -/
structure NodeMapping where
  dummy : Unit
deriving DecidableEq, Repr

/-- Placeholder for `crate::config::RelationshipMapping` (external to the
verified file; never constructed or inspected by the catalog). -/
structure RelationshipMapping where
  dummy : Unit
deriving DecidableEq, Repr

/-- Model of `SimpleTableSource`: a handle holding a fixed schema. -/
structure SimpleTableSource where
  schema : Schema
deriving DecidableEq, Repr

/-- `SimpleTableSource::new(schema)`. -/
def SimpleTableSource.new (s : Schema) : SimpleTableSource := ⟨s⟩

/-- `SimpleTableSource::empty()`. -/
def SimpleTableSource.emptySource : SimpleTableSource := ⟨Schema.empty⟩

/-- `TableSource::schema(&self)` for `SimpleTableSource`: clones the stored
`SchemaRef`, i.e. returns the stored schema. -/
def SimpleTableSource.schemaOf (t : SimpleTableSource) : Schema := t.schema

/-- Model of `HashMap::get(key)` over an association list: exact string-key
lookup. -/
def lookupAssoc {τ : Type} : List (String × τ) → String → Option τ
  | [], _ => none
  | (k, v) :: rest, key => if k = key then some v else lookupAssoc rest key

/-- Model of `HashMap::insert(key, v)` over an association list: overwrite
the value when the key is present, otherwise add the pair. -/
def insertAssoc {τ : Type} : List (String × τ) → String → τ → List (String × τ)
  | [], key, v => [(key, v)]
  | (k, w) :: rest, key, v =>
      if k = key then (key, v) :: rest else (k, w) :: insertAssoc rest key v

/-- Model of `InMemoryCatalog`: two independent maps, node labels and
relationship types, each to a table-source handle of type `τ`. -/
structure InMemoryCatalog (τ : Type) where
  node_sources : List (String × τ)
  rel_sources : List (String × τ)
deriving DecidableEq, Repr

namespace InMemoryCatalog

variable {τ : Type}

/-- `InMemoryCatalog::new()`: both maps empty. -/
def new : InMemoryCatalog τ := ⟨[], []⟩

/-- `Default::default()` for `InMemoryCatalog`: delegates to `new()`. -/
def defaultCatalog : InMemoryCatalog τ := new

/-- `InMemoryCatalog::with_node_source(label, source)`: inserts into the
node map and returns the updated catalog. -/
def with_node_source (c : InMemoryCatalog τ) (label : String) (source : τ) :
    InMemoryCatalog τ :=
  { c with node_sources := insertAssoc c.node_sources label source }

/-- `InMemoryCatalog::with_relationship_source(rel_type, source)`: inserts
into the relationship map and returns the updated catalog. -/
def with_relationship_source (c : InMemoryCatalog τ) (rel_type : String)
    (source : τ) : InMemoryCatalog τ :=
  { c with rel_sources := insertAssoc c.rel_sources rel_type source }

/-- `GraphSourceCatalog::node_source` for `InMemoryCatalog`:
`self.node_sources.get(label).cloned()`. -/
def node_source (c : InMemoryCatalog τ) (label : String) : Option τ :=
  lookupAssoc c.node_sources label

/-- `GraphSourceCatalog::relationship_source` for `InMemoryCatalog`:
`self.rel_sources.get(rel_type).cloned()`. -/
def relationship_source (c : InMemoryCatalog τ) (rel_type : String) : Option τ :=
  lookupAssoc c.rel_sources rel_type

/-- `GraphSourceCatalog::get_node_mapping`, not overridden by
`InMemoryCatalog`: the trait default returns `None` for every label. -/
def get_node_mapping (_c : InMemoryCatalog τ) (_label : String) :
    Option NodeMapping := none

/-- `GraphSourceCatalog::get_relationship_mapping`, not overridden by
`InMemoryCatalog`: the trait default returns `None` for every type. -/
def get_relationship_mapping (_c : InMemoryCatalog τ) (_rel_type : String) :
    Option RelationshipMapping := none

/-- A `&self` resolution call modelled with the state threaded explicitly:
the method borrows the catalog immutably, so the state component it hands
back is the catalog itself, unchanged. -/
def node_sourceCall (c : InMemoryCatalog τ) (label : String) :
    Option τ × InMemoryCatalog τ :=
  (c.node_source label, c)

/-- Same explicit-state view of `relationship_source`. -/
def relationship_sourceCall (c : InMemoryCatalog τ) (rel_type : String) :
    Option τ × InMemoryCatalog τ :=
  (c.relationship_source rel_type, c)

end InMemoryCatalog

/-- Lookup after inserting at the same key yields the inserted value. -/
theorem lookupAssoc_insertAssoc_self {τ : Type} (m : List (String × τ))
    (key : String) (v : τ) : lookupAssoc (insertAssoc m key v) key = some v := by
  induction m with
  | nil => simp [insertAssoc, lookupAssoc]
  | cons p rest ih =>
      obtain ⟨k, w⟩ := p
      by_cases h : k = key
      · simp [insertAssoc, lookupAssoc, h]
      · simp [insertAssoc, lookupAssoc, h, ih]

/-- Lookup at a key different from the inserted one is unchanged. -/
theorem lookupAssoc_insertAssoc_ne {τ : Type} (m : List (String × τ))
    (key key' : String) (v : τ) (h : key' ≠ key) :
    lookupAssoc (insertAssoc m key v) key' = lookupAssoc m key' := by
  induction m with
  | nil => simp [insertAssoc, lookupAssoc, Ne.symm h]
  | cons p rest ih =>
      obtain ⟨k, w⟩ := p
      by_cases hk : k = key
      · subst hk
        simp [insertAssoc, lookupAssoc, Ne.symm h]
      · by_cases hk' : k = key'
        · simp [insertAssoc, lookupAssoc, hk, hk', h]
        · simp [insertAssoc, lookupAssoc, hk, hk', ih]

/-- A concrete handle used by the witness theorems. -/
def sampleSource : SimpleTableSource := SimpleTableSource.new ⟨["id"]⟩

/-- C1: registering (L, H) on an empty in-memory catalog and then resolving L
via node_source returns some handle observably equal to H (same schema), and
resolving any label other than L returns none; symmetrically for relationship
types via with_relationship_source / relationship_source. -/
theorem C1_register_then_resolve_empty (L : String) (H : SimpleTableSource) :
    ((InMemoryCatalog.new.with_node_source L H).node_source L = some H) ∧
    (∀ h', (InMemoryCatalog.new.with_node_source L H).node_source L = some h' →
      h'.schemaOf = H.schemaOf) ∧
    (∀ L', L' ≠ L →
      (InMemoryCatalog.new.with_node_source L H).node_source L' = none) ∧
    ((InMemoryCatalog.new.with_relationship_source L H).relationship_source L
      = some H) ∧
    (∀ T', T' ≠ L →
      (InMemoryCatalog.new.with_relationship_source L H).relationship_source T'
        = none) := by
  refine ⟨?_, ?_, ?_, ?_, ?_⟩
  · simp [InMemoryCatalog.new, InMemoryCatalog.with_node_source,
      InMemoryCatalog.node_source, insertAssoc, lookupAssoc]
  · intro h' hh
    simp [InMemoryCatalog.new, InMemoryCatalog.with_node_source,
      InMemoryCatalog.node_source, insertAssoc, lookupAssoc] at hh
    simp [hh]
  · intro L' hL'
    simp [InMemoryCatalog.new, InMemoryCatalog.with_node_source,
      InMemoryCatalog.node_source, insertAssoc, lookupAssoc, Ne.symm hL']
  · simp [InMemoryCatalog.new, InMemoryCatalog.with_relationship_source,
      InMemoryCatalog.relationship_source, insertAssoc, lookupAssoc]
  · intro T' hT'
    simp [InMemoryCatalog.new, InMemoryCatalog.with_relationship_source,
      InMemoryCatalog.relationship_source, insertAssoc, lookupAssoc, Ne.symm hT']

/-- Witness for C1 at label "Person", other label "Edge", handle
`sampleSource`. -/
theorem C1_register_then_resolve_empty_witness :
    ((InMemoryCatalog.new.with_node_source "Person" sampleSource).node_source
        "Person" = some sampleSource) ∧
    sampleSource.schemaOf = sampleSource.schemaOf ∧
    (("Edge" : String) ≠ "Person") ∧
    ((InMemoryCatalog.new.with_node_source "Person" sampleSource).node_source
        "Edge" = none) ∧
    ((InMemoryCatalog.new.with_relationship_source "KNOWS"
        sampleSource).relationship_source "KNOWS" = some sampleSource) :=
  ⟨(C1_register_then_resolve_empty "Person" sampleSource).1,
   (C1_register_then_resolve_empty "Person" sampleSource).2.1 sampleSource
     (C1_register_then_resolve_empty "Person" sampleSource).1,
   by decide,
   (C1_register_then_resolve_empty "Person" sampleSource).2.2.1 "Edge"
     (by decide),
   (C1_register_then_resolve_empty "KNOWS" sampleSource).2.2.2.1⟩

/-- C2: registering L with H1 and then L again with H2 (in that order, from
any catalog state) makes node_source L return H2; the second registration
silently replaces the first. The same last-write-wins behaviour holds for
relationship-type registration. -/
theorem C2_last_write_wins {τ : Type} (c : InMemoryCatalog τ) (L : String)
    (H1 H2 : τ) :
    (((c.with_node_source L H1).with_node_source L H2).node_source L
      = some H2) ∧
    (((c.with_relationship_source L H1).with_relationship_source L
        H2).relationship_source L = some H2) := by
  constructor
  · simpa [InMemoryCatalog.with_node_source, InMemoryCatalog.node_source]
      using lookupAssoc_insertAssoc_self
        (insertAssoc c.node_sources L H1) L H2
  · simpa [InMemoryCatalog.with_relationship_source,
      InMemoryCatalog.relationship_source]
      using lookupAssoc_insertAssoc_self
        (insertAssoc c.rel_sources L H1) L H2

/-- C3: node-label and relationship-type namespaces are independent:
registering N as a node label does not make relationship_source N return
some, and registering N as a relationship type does not make node_source N
return some. -/
theorem C3_namespaces_independent {τ : Type} (c : InMemoryCatalog τ)
    (N : String) (H : τ) (hr : c.relationship_source N = none)
    (hn : c.node_source N = none) :
    ((c.with_node_source N H).relationship_source N = none) ∧
    ((c.with_relationship_source N H).node_source N = none) := by
  constructor
  · simpa [InMemoryCatalog.with_node_source,
      InMemoryCatalog.relationship_source] using hr
  · simpa [InMemoryCatalog.with_relationship_source,
      InMemoryCatalog.node_source] using hn

/-- Witness for C3 on the empty catalog at name "Person". -/
theorem C3_namespaces_independent_witness :
    (InMemoryCatalog.relationship_source InMemoryCatalog.new "Person"
      = (none : Option SimpleTableSource)) ∧
    (InMemoryCatalog.node_source InMemoryCatalog.new "Person"
      = (none : Option SimpleTableSource)) ∧
    (((InMemoryCatalog.new.with_node_source "Person"
        sampleSource).relationship_source "Person" = none) ∧
      ((InMemoryCatalog.new.with_relationship_source "Person"
        sampleSource).node_source "Person" = none)) :=
  ⟨rfl, rfl,
   C3_namespaces_independent InMemoryCatalog.new "Person" sampleSource rfl rfl⟩

/-- C4: get_node_mapping and get_relationship_mapping on the in-memory
catalog return none for every input, including names that have a registered
schema handle (the trait defaults are not overridden). -/
theorem C4_mappings_always_none {τ : Type} (c : InMemoryCatalog τ)
    (s L : String) (H : τ) :
    (c.get_node_mapping s = none) ∧
    (c.get_relationship_mapping s = none) ∧
    ((c.with_node_source L H).get_node_mapping L = none) ∧
    ((c.with_relationship_source L H).get_relationship_mapping L = none) :=
  ⟨rfl, rfl, rfl, rfl⟩

/-- C5: SimpleTableSource::empty() reports a schema with zero columns, and
SimpleTableSource::new(s) reports exactly the schema s; schema() is a pure
accessor of the stored immutable schema, so repeated calls on the same
handle return equal schemas. -/
theorem C5_simple_table_source_schema (s : Schema) :
    (SimpleTableSource.emptySource.schemaOf.fields.length = 0) ∧
    ((SimpleTableSource.new s).schemaOf = s) ∧
    ((SimpleTableSource.new s).schemaOf = (SimpleTableSource.new s).schemaOf) :=
  ⟨rfl, rfl, rfl⟩

/-- C6: a freshly constructed in-memory catalog (new(), and equivalently
Default::default()) resolves none for every label via node_source and for
every relationship type via relationship_source. -/
theorem C6_fresh_catalog_resolves_none (τ : Type) (s : String) :
    ((InMemoryCatalog.new : InMemoryCatalog τ).node_source s = none) ∧
    ((InMemoryCatalog.new : InMemoryCatalog τ).relationship_source s = none) ∧
    ((InMemoryCatalog.defaultCatalog : InMemoryCatalog τ)
      = InMemoryCatalog.new) :=
  ⟨rfl, rfl, rfl⟩

/-- C7: resolution is deterministic and idempotent: with the `&self` borrow
made explicit as threaded state, a resolution call leaves the catalog
unchanged, and a repeated call with the same key returns the same result. -/
theorem C7_resolution_idempotent (τ : Type) (c : InMemoryCatalog τ)
    (k : String) :
    ((c.node_sourceCall k).2 = c) ∧
    (((c.node_sourceCall k).2.node_sourceCall k).1 = (c.node_sourceCall k).1) ∧
    ((c.relationship_sourceCall k).2 = c) ∧
    (((c.relationship_sourceCall k).2.relationship_sourceCall k).1
      = (c.relationship_sourceCall k).1) :=
  ⟨rfl, rfl, rfl, rfl⟩

/-- C8: no operation of the in-memory catalog can fail in the error sense:
all four operations are total functions (totality certified by Lean's
termination checking of the underlying lookup), and the only outcome besides
some is the ordinary value none. -/
theorem C8_no_error_outcome (τ : Type) (c : InMemoryCatalog τ) (k : String) :
    ((c.node_source k = none) ∨ (∃ v, c.node_source k = some v)) ∧
    ((c.relationship_source k = none) ∨
      (∃ v, c.relationship_source k = some v)) ∧
    (c.get_node_mapping k = none) ∧
    (c.get_relationship_mapping k = none) := by
  refine ⟨?_, ?_, rfl, rfl⟩
  · cases h : c.node_source k with
    | none => exact Or.inl rfl
    | some v => exact Or.inr ⟨v, rfl⟩
  · cases h : c.relationship_source k with
    | none => exact Or.inl rfl
    | some v => exact Or.inr ⟨v, rfl⟩

/-- C10: registration has no effect beyond its own key in its own namespace:
with_node_source k H changes no other node label and no relationship type,
and with_relationship_source k H changes no other relationship type and no
node label. -/
theorem C10_registration_frame {τ : Type} (c : InMemoryCatalog τ)
    (k k' m : String) (H : τ) (h : k' ≠ k) :
    ((c.with_node_source k H).node_source k' = c.node_source k') ∧
    ((c.with_node_source k H).relationship_source m
      = c.relationship_source m) ∧
    ((c.with_relationship_source k H).relationship_source k'
      = c.relationship_source k') ∧
    ((c.with_relationship_source k H).node_source m = c.node_source m) := by
  refine ⟨?_, rfl, ?_, rfl⟩
  · simpa [InMemoryCatalog.with_node_source, InMemoryCatalog.node_source]
      using lookupAssoc_insertAssoc_ne c.node_sources k k' H h
  · simpa [InMemoryCatalog.with_relationship_source,
      InMemoryCatalog.relationship_source]
      using lookupAssoc_insertAssoc_ne c.rel_sources k k' H h

/-- Witness for C10: on a catalog already holding node label "A" and
relationship type "R", registering node label "B" leaves both untouched. -/
theorem C10_registration_frame_witness :
    (("A" : String) ≠ "B") ∧
    ((((InMemoryCatalog.new.with_node_source "A"
          sampleSource).with_relationship_source "R"
          sampleSource).with_node_source "B" sampleSource).node_source "A"
      = ((InMemoryCatalog.new.with_node_source "A"
          sampleSource).with_relationship_source "R"
          sampleSource).node_source "A") ∧
    ((((InMemoryCatalog.new.with_node_source "A"
          sampleSource).with_relationship_source "R"
          sampleSource).with_node_source "B"
          sampleSource).relationship_source "R"
      = ((InMemoryCatalog.new.with_node_source "A"
          sampleSource).with_relationship_source "R"
          sampleSource).relationship_source "R") :=
  ⟨by decide,
   (C10_registration_frame
      ((InMemoryCatalog.new.with_node_source "A"
        sampleSource).with_relationship_source "R" sampleSource)
      "B" "A" "R" sampleSource (by decide)).1,
   (C10_registration_frame
      ((InMemoryCatalog.new.with_node_source "A"
        sampleSource).with_relationship_source "R" sampleSource)
      "B" "A" "R" sampleSource (by decide)).2.1⟩

end LanceGraph
